import Mathlib

/-!
Shallow embedding of the food-analysis pipeline of this repository
(`src/utils/foodRecognition.ts` and the save handler of
`src/screens/ResultScreen.tsx`), together with theorems settling the
spec claims about it.

Network calls are modelled by passing the remote response (or an error)
as an explicit argument; everything else is translated directly from the
TypeScript source.
-/

namespace FoodApp

/-! ## String utilities (JS `String.prototype.includes` on char lists) -/

/-- `charListStarts needle hay` : `needle` occurs at the start of `hay`. -/
def charListStarts : List Char → List Char → Bool
  | [], _ => true
  | _ :: _, [] => false
  | a :: as, b :: bs => a == b && charListStarts as bs

/-- `charListHasSub needle hay` : `needle` occurs somewhere in `hay`. -/
def charListHasSub (needle : List Char) : List Char → Bool
  | [] => charListStarts needle []
  | b :: bs => charListStarts needle (b :: bs) || charListHasSub needle bs

/-- ASCII lowercase on the underlying char list, modelling JS
`toLowerCase` on the ASCII strings used here. -/
def strToLower (s : String) : String :=
  String.mk (s.data.map Char.toLower)

/-- `strIncludes hay needle` models JS `hay.includes(needle)`. -/
def strIncludes (hay needle : String) : Bool :=
  charListHasSub needle.data hay.data

/-! ## Food relevance filter (`isFoodRelated`, `isGenericCategory`) -/

/-- The keyword vocabulary of `isFoodRelated` in `foodRecognition.ts`,
verbatim, duplicates included. -/
def foodKeywords : List String :=
  ["sushi", "croissant", "fish", "tuna", "salmon", "cod", "shrimp", "lobster", "crab", "oyster", "clam",
   "orange", "pineapple", "apple", "banana", "grape", "watermelon", "kiwi", "mango", "papaya", "peach",
   "pear", "plum", "cherry", "strawberry", "blueberry", "raspberry", "blackberry", "coconut", "avocado",
   "broccoli", "carrot", "spinach", "kale", "lettuce", "cucumber", "zucchini", "eggplant", "pepper",
   "tomato", "potato", "onion", "garlic", "ginger", "mushroom", "pumpkin", "squash", "corn", "peas",
   "chicken", "beef", "pork", "lamb", "duck", "turkey", "bacon", "sausage", "hotdog", "steak", "ham",
   "pizza", "burger", "sandwich", "taco", "burrito", "quesadilla", "pasta", "spaghetti", "lasagna",
   "ravioli", "noodles", "soup", "stew", "chowder", "salad", "cake", "pie", "cookie", "brownie",
   "donut", "muffin", "pancake", "waffle", "croissant", "bagel", "toast", "cheese", "yogurt", "milk",
   "ice cream", "chocolate", "candy", "honey", "jam", "jelly", "syrup", "tea", "coffee", "juice",
   "smoothie", "soda", "beer", "wine", "whiskey", "cocktail",
   "hotdog", "sushi", "fish", "tuna", "orange", "pineapple",
   "paneer", "dal", "samosa", "pakora", "biryani", "naan", "roti", "paratha", "chapati", "idli",
   "dosa", "uttapam", "poha", "upma", "chole", "rajma", "kadhi", "sabzi", "aloo", "gobi", "bhindi",
   "baingan", "kheer", "gulab jamun", "jalebi", "laddu", "halwa", "pulao", "khichdi", "rasgulla",
   "malai kofta", "palak paneer", "matar paneer", "veg curry", "veg biryani", "veg pulao", "tikka",
   "chaat", "pani puri", "bhel puri", "sev puri", "dahi puri", "vada pav", "misal pav", "pav bhaji"]

/-- `isFoodRelated desc` : some food keyword occurs (case-insensitively)
in `desc`. -/
def isFoodRelated (desc : String) : Bool :=
  foodKeywords.any (fun keyword => strIncludes (strToLower desc) keyword)

/-- The generic-category vocabulary of `isGenericCategory`, verbatim. -/
def genericCategories : List String :=
  ["food", "staple food", "dish", "meal", "fruit", "vegetable", "meat", "bread",
   "drink", "beverage", "produce", "plant", "cuisine"]

/-- `isGenericCategory desc` : `desc` (lowercased) equals one of the
umbrella category words. -/
def isGenericCategory (desc : String) : Bool :=
  genericCategories.contains (strToLower desc)

/-! ## Vision annotations and their merge/sort -/

/-- One entry of `labelAnnotations` in the Vision response. -/
structure LabelAnn where
  description : String
  score : ℚ
deriving Repr, DecidableEq

/-- One entry of `localizedObjectAnnotations` in the Vision response. -/
structure ObjAnn where
  name : String
  score : ℚ
deriving Repr, DecidableEq

/-- A merged annotation: `{ type, description, score }` as built in
`analyzeFoodImage`. -/
structure Annot where
  type : String
  description : String
  score : ℚ
deriving Repr, DecidableEq

/-- The successful payload of the Vision call (first response entry). -/
structure VisionPayload where
  labelAnnotations : List LabelAnn
  localizedObjectAnnotations : List ObjAnn
deriving Repr, DecidableEq

/-- The sort comparator `(a, b) => b.score - a.score` of
`analyzeFoodImage`: `a` may stay before `b` iff `b.score ≤ a.score`. -/
def scoreDesc (a b : Annot) : Bool :=
  decide (b.score ≤ a.score)

/-- Merge label and object annotations and sort by score descending,
as in `analyzeFoodImage` (a stable sort, ties keep labels before
objects as in the JS engine's stable `Array.prototype.sort`). -/
def mergeAnnots (payload : VisionPayload) : List Annot :=
  ((payload.labelAnnotations.map fun a => Annot.mk "label" a.description a.score) ++
   (payload.localizedObjectAnnotations.map fun a => Annot.mk "object" a.name a.score)).mergeSort
    scoreDesc

/-! ## Name / query selection -/

/-- JS `s || 'Unknown Food'` : the empty string is falsy. -/
def orUnknown (s : String) : String :=
  if s == "" then "Unknown Food" else s

/-- The pair (display name, USDA query) chosen by `analyzeFoodImage`. -/
structure Selection where
  name : String
  usdaQueryName : String
deriving Repr, DecidableEq

/-- The annotation-selection logic of `analyzeFoodImage` (lines 156-175):
prefer a food-related non-generic annotation, else any food-related one,
else the first annotation, else keep the sentinel. -/
def selectNameQuery (allAnnots : List Annot) : Selection :=
  let bestForDisplay := allAnnots.find? (fun a => isFoodRelated a.description)
  let specificAnn :=
    allAnnots.find? (fun a => isFoodRelated a.description && !isGenericCategory a.description)
  match specificAnn with
  | some a => ⟨orUnknown a.description, a.description⟩
  | none =>
    match bestForDisplay with
    | some a => ⟨orUnknown a.description, a.description⟩
    | none =>
      match allAnnots with
      | a :: _ => ⟨orUnknown a.description, a.description⟩
      | [] => ⟨"Unknown Food", "Unknown Food"⟩

/-! ## Description rendering -/

/-- Two-decimal rendering of `score * 100`, modelling JS
`(score * 100).toFixed(2)` for the nonnegative scores used here; the
rounded value `n = round(10000 * q)` is computed directly on the
rational's numerator and denominator. -/
def formatScorePercent (q : ℚ) : String :=
  let n : ℕ := ((q.num * 20000 + (q.den : ℤ)) / (2 * (q.den : ℤ))).toNat
  toString (n / 100) ++ "." ++
    (if n % 100 < 10 then "0" ++ toString (n % 100) else toString (n % 100))

/-- Render one annotation for the description string:
`<text> (<score*100 to 2 decimals>%) [<kind>]`. -/
def renderAnnot (a : Annot) : String :=
  a.description ++ " (" ++ formatScorePercent a.score ++ "%) [" ++ a.type ++ "]"

/-- The description built in `analyzeFoodImage` (lines 177-179). -/
def descriptionOf (allAnnots : List Annot) : String :=
  if (allAnnots.find? (fun a => isFoodRelated a.description)).isSome
      || decide (0 < allAnnots.length) then
    String.intercalate ", " (allAnnots.map renderAnnot)
  else
    "No detailed description available."

/-! ## Nutrition lookup adapter (`fetchNutritionalData`) -/

/-- One `foodNutrients` entry of a USDA food record. -/
structure Nutrient where
  nutrientName : String
  value : ℚ
  unitName : String
deriving Repr, DecidableEq

/-- A USDA food record as used by `fetchNutritionalData`. -/
structure FoodData where
  fdcId : ℕ
  description : String
  foodNutrients : List Nutrient
deriving Repr, DecidableEq

/-- The `NutritionalData` interface: the four required fields are plain
numbers (initialised to 0), the three optional ones may be absent. -/
structure NutritionalData where
  calories : ℚ
  protein : ℚ
  carbs : ℚ
  fat : ℚ
  fiber : Option ℚ
  sugar : Option ℚ
  sodium : Option ℚ
deriving Repr, DecidableEq

/-- The seven nutrient categories of the extraction chain. -/
inductive NutrCat where
  | calories | protein | carbs | fat | fiber | sugar | sodium
deriving Repr, DecidableEq

/-- The body of the `forEach` in `fetchNutritionalData` (lines 247-264):
an exclusive if/else-if chain updating one field of the record. -/
def extractStep (d : NutritionalData) (nutrient : Nutrient) : NutritionalData :=
  if strIncludes (strToLower nutrient.nutrientName) "energy" then
    { d with calories := nutrient.value }
  else if strIncludes (strToLower nutrient.nutrientName) "protein" then
    { d with protein := nutrient.value }
  else if strIncludes (strToLower nutrient.nutrientName) "carbohydrate" then
    { d with carbs := nutrient.value }
  else if strIncludes (strToLower nutrient.nutrientName) "total lipid"
      || strIncludes (strToLower nutrient.nutrientName) "fat" then
    { d with fat := nutrient.value }
  else if strIncludes (strToLower nutrient.nutrientName) "fiber" then
    { d with fiber := some nutrient.value }
  else if strIncludes (strToLower nutrient.nutrientName) "sugar" then
    { d with sugar := some nutrient.value }
  else if strIncludes (strToLower nutrient.nutrientName) "sodium" then
    { d with sodium := some nutrient.value }
  else d

/-- The category a nutrient is assigned to by the chain of `extractStep`
(`none` when no branch fires). -/
def catOf (nutrient : Nutrient) : Option NutrCat :=
  if strIncludes (strToLower nutrient.nutrientName) "energy" then some .calories
  else if strIncludes (strToLower nutrient.nutrientName) "protein" then some .protein
  else if strIncludes (strToLower nutrient.nutrientName) "carbohydrate" then some .carbs
  else if strIncludes (strToLower nutrient.nutrientName) "total lipid"
      || strIncludes (strToLower nutrient.nutrientName) "fat" then some .fat
  else if strIncludes (strToLower nutrient.nutrientName) "fiber" then some .fiber
  else if strIncludes (strToLower nutrient.nutrientName) "sugar" then some .sugar
  else if strIncludes (strToLower nutrient.nutrientName) "sodium" then some .sodium
  else none

/-- Non-exclusive per-category name test (which substrings a nutrient
name contains), used to state that the chain takes the FIRST match. -/
def catMatches (c : NutrCat) (nutrient : Nutrient) : Bool :=
  match c with
  | .calories => strIncludes (strToLower nutrient.nutrientName) "energy"
  | .protein => strIncludes (strToLower nutrient.nutrientName) "protein"
  | .carbs => strIncludes (strToLower nutrient.nutrientName) "carbohydrate"
  | .fat => strIncludes (strToLower nutrient.nutrientName) "total lipid"
      || strIncludes (strToLower nutrient.nutrientName) "fat"
  | .fiber => strIncludes (strToLower nutrient.nutrientName) "fiber"
  | .sugar => strIncludes (strToLower nutrient.nutrientName) "sugar"
  | .sodium => strIncludes (strToLower nutrient.nutrientName) "sodium"

/-- The chain order of the if/else-if cascade. -/
def catChainOrder : List NutrCat :=
  [.calories, .protein, .carbs, .fat, .fiber, .sugar, .sodium]

/-- Read the field of a `NutritionalData` belonging to a category
(required fields wrapped in `some`). -/
def fieldOpt (c : NutrCat) (d : NutritionalData) : Option ℚ :=
  match c with
  | .calories => some d.calories
  | .protein => some d.protein
  | .carbs => some d.carbs
  | .fat => some d.fat
  | .fiber => d.fiber
  | .sugar => d.sugar
  | .sodium => d.sodium

/-- The initial record of `fetchNutritionalData`: required fields 0,
optional fields absent. -/
def initNutritionalData : NutritionalData :=
  ⟨0, 0, 0, 0, none, none, none⟩

/-- Extraction over the whole nutrient list (the `forEach` loop). -/
def extractNutritionalData (ns : List Nutrient) : NutritionalData :=
  ns.foldl extractStep initNutritionalData

/-- The USDA search URL built in `fetchNutritionalData` (line 227);
`encodedQuery` stands for `encodeURIComponent(foodName)`. -/
def usdaSearchUrl (encodedQuery apiKey : String) : String :=
  "https://api.nal.usda.gov/fdc/v1" ++ "/foods/search?query=" ++ encodedQuery ++
    "&dataType=Survey%20(FNDDS)&pageSize=5&api_key=" ++ apiKey

/-- `fetchNutritionalData` given the remote search response `foods`:
zero matches throw, else the first match is extracted; the outer catch
rewraps any error message. -/
def fetchNutritionalData (foodName : String) (foods : List FoodData) :
    Except String NutritionalData :=
  let inner : Except String NutritionalData :=
    match foods with
    | [] => .error ("No matching food found for " ++ foodName)
    | foodData :: _ => .ok (extractNutritionalData foodData.foodNutrients)
  match inner with
  | .error _ => .error ("Failed to fetch nutritional data for " ++ foodName)
  | .ok d => .ok d

/-! ## Orchestrator (`analyzeFoodImage`) -/

/-- The failure information of the Vision call (HTTP status when a
response exists, and the error message). -/
structure VisionErr where
  status : Option ℕ
  message : String
deriving Repr, DecidableEq

/-- The error message rethrown by `analyzeFoodImage`'s catch block. -/
def translateVisionError (e : VisionErr) : String :=
  if e.status == some 403 then
    "Google Cloud Vision API access denied (403). Please check if your API key is valid and the API is enabled for your project."
  else
    "Failed to analyze food image. Please try again. Error: " ++
      (if e.message == "" then "Unknown error" else e.message)

/-- The result record assembled by `analyzeFoodImage`. -/
structure FoodAnalysisResult where
  name : String
  description : String
  nutritionalData : Option NutritionalData
  isFoodItem : Bool
deriving Repr, DecidableEq

/-- `analyzeFoodImage`, with the Vision response (or its failure) and
the nutrition lookup passed in explicitly. A lookup is attempted only
when the selected query differs from the sentinel; a lookup failure is
swallowed (lines 186-191), a Vision failure is rethrown (lines 199-208). -/
def analyzeFoodImage (classifierResponse : Except VisionErr VisionPayload)
    (lookup : String → Except String NutritionalData) :
    Except String FoodAnalysisResult :=
  match classifierResponse with
  | .error e => .error (translateVisionError e)
  | .ok payload =>
    let allAnnots := mergeAnnots payload
    let sel := selectNameQuery allAnnots
    let nutritionalData : Option NutritionalData :=
      if sel.usdaQueryName ≠ "Unknown Food" then
        match lookup sel.usdaQueryName with
        | .ok d => some d
        | .error _ => none
      else none
    let isFoodItem : Bool := sel.usdaQueryName ≠ "Unknown Food"
    .ok ⟨sel.name, descriptionOf allAnnots, nutritionalData, isFoodItem⟩

/-! ## Save handler (`handleSaveToHistory` in `ResultScreen.tsx`) -/

/-- JS `x || 0` on a number: 0 stays 0, anything else is kept. -/
def jsOr0 (x : ℚ) : ℚ :=
  if x = 0 then 0 else x

/-- JS `opt?.field || 0` once `opt` is known present as an `Option`. -/
def jsOrOpt0 : Option ℚ → ℚ
  | none => 0
  | some v => jsOr0 v

/-- One item of the saved `analysis_data` payload. -/
structure MealItem where
  name : String
  calories : ℚ
  protein : ℚ
  carbs : ℚ
  fats : ℚ
  fiber : ℚ
  sugar : ℚ
  sodium : ℚ
deriving Repr, DecidableEq

/-- The aggregate `total` of the saved payload. -/
structure MealTotals where
  calories : ℚ
  protein : ℚ
  carbs : ℚ
  fats : ℚ
  fiber : ℚ
  sugar : ℚ
  sodium : ℚ
deriving Repr, DecidableEq

/-- The nested `analysis_data` JSON value. -/
structure AnalysisData where
  items : List MealItem
  total : MealTotals
deriving Repr, DecidableEq

/-- The row written to the `meals` table. -/
structure MealRecord where
  userId : String
  imageUrl : String
  analysisData : AnalysisData
deriving Repr, DecidableEq

/-- `handleSaveToHistory` (lines 102-136 of `ResultScreen.tsx`):
refuses non-food or nutrition-less results, otherwise builds the
single-item record with its aggregate totals. -/
def handleSaveToHistory (userId imageUri : String) (foodData : FoodAnalysisResult) :
    Option MealRecord :=
  if foodData.isFoodItem = false ∨ foodData.nutritionalData = none then none
  else
    match foodData.nutritionalData with
    | none => none
    | some nd =>
      some ⟨userId, imageUri,
        ⟨[⟨foodData.name, jsOr0 nd.calories, jsOr0 nd.protein, jsOr0 nd.carbs,
           jsOr0 nd.fat, jsOrOpt0 nd.fiber, jsOrOpt0 nd.sugar, jsOrOpt0 nd.sodium⟩],
         ⟨jsOr0 nd.calories, jsOr0 nd.protein, jsOr0 nd.carbs, jsOr0 nd.fat,
          jsOrOpt0 nd.fiber, jsOrOpt0 nd.sugar, jsOrOpt0 nd.sodium⟩⟩⟩

/-! ## Helper lemmas -/

theorem isFoodRelated_empty : isFoodRelated "" = false := by decide

theorem isFoodRelated_ne_empty {d : String} (h : isFoodRelated d = true) : d ≠ "" := by
  intro he
  rw [he, isFoodRelated_empty] at h
  exact Bool.false_ne_true h

theorem orUnknown_of_ne {s : String} (h : s ≠ "") : orUnknown s = s := by
  simp [orUnknown, h]

/-- Each `extractStep` writes exactly the field of the nutrient's chain
category and leaves every other field unchanged. -/
theorem fieldOpt_extractStep (d : NutritionalData) (n : Nutrient) (c : NutrCat) :
    fieldOpt c (extractStep d n) =
      if catOf n = some c then some n.value else fieldOpt c d := by
  unfold extractStep catOf
  split_ifs <;> cases c <;> simp_all [fieldOpt]

/-- Folding `extractStep` over a nutrient list: a category's field holds
the value of the LAST nutrient assigned to it, or stays at its start
value when none is. -/
theorem fieldOpt_foldl (c : NutrCat) (ns : List Nutrient) (d : NutritionalData) :
    fieldOpt c (ns.foldl extractStep d) =
      match (ns.filter fun x => decide (catOf x = some c)).getLast? with
      | some n => some n.value
      | none => fieldOpt c d := by
  induction ns generalizing d with
  | nil => rfl
  | cons x xs ih =>
    rw [List.foldl_cons, ih (extractStep d x)]
    by_cases hx : catOf x = some c
    · rw [List.filter_cons_of_pos (by simpa using hx)]
      cases hl : xs.filter fun y => decide (catOf y = some c) with
      | nil => simp [fieldOpt_extractStep, hx]
      | cons z zs =>
        rw [List.getLast?_cons_cons]
        cases hg : (z :: zs).getLast? with
        | none => simp at hg
        | some m => rfl
    · rw [List.filter_cons_of_neg (by simpa using hx)]
      cases hl : xs.filter fun y => decide (catOf y = some c) with
      | nil => simp [fieldOpt_extractStep, hx]
      | cons z zs => rfl

/-- When no nutrient of `ns` is assigned to category `c`, the fold
leaves that category's field at its initial value. -/
theorem fieldOpt_of_no_match (c : NutrCat) (ns : List Nutrient)
    (h : ns.filter (fun x => decide (catOf x = some c)) = []) :
    fieldOpt c (extractNutritionalData ns) = fieldOpt c initNutritionalData := by
  rw [extractNutritionalData, fieldOpt_foldl, h]
  rfl

/-! ## Claim theorems: nutrient extraction (C3, C5, C10) -/

/-- Claim C3: when several nutrients of the matched record map to the
same `NutritionalData` category, the LAST matching nutrient in list
order determines the field (no aggregation); in particular a list with
two sodium entries valued 100 then 120 extracts sodium 120. -/
theorem c3_last_match_wins :
    (∀ (c : NutrCat) (ns : List Nutrient) (n : Nutrient),
        (ns.filter fun x => decide (catOf x = some c)).getLast? = some n →
        fieldOpt c (extractNutritionalData ns) = some n.value) ∧
    (extractNutritionalData
        [⟨"Sodium, Na", 100, "MG"⟩, ⟨"Sodium, added", 120, "MG"⟩]).sodium = some 120 := by
  constructor
  · intro c ns n h
    rw [extractNutritionalData, fieldOpt_foldl, h]
  · decide

/-- Witness for C3 at the two-sodium-entry list of the claim. -/
theorem c3_last_match_wins_witness :
    ([⟨"Sodium, Na", 100, "MG"⟩, ⟨"Sodium, added", 120, "MG"⟩].filter
        fun x => decide (catOf x = some NutrCat.sodium)).getLast?
      = some (⟨"Sodium, added", 120, "MG"⟩ : Nutrient) ∧
    fieldOpt NutrCat.sodium
        (extractNutritionalData
          [⟨"Sodium, Na", 100, "MG"⟩, ⟨"Sodium, added", 120, "MG"⟩]) = some 120 :=
  ⟨by decide, c3_last_match_wins.1 NutrCat.sodium
    [⟨"Sodium, Na", 100, "MG"⟩, ⟨"Sodium, added", 120, "MG"⟩]
    ⟨"Sodium, added", 120, "MG"⟩ (by decide)⟩

/-- Claim C5 counterexample: on a nutrient list where nothing matches,
the optional fields of the extracted record are ABSENT, not 0, so not
every field defaults to 0. -/
theorem c5_counterexample :
    (extractNutritionalData []).fiber = none ∧
    (extractNutritionalData []).sugar = none ∧
    (extractNutritionalData []).sodium = none ∧
    (none : Option ℚ) ≠ some 0 := by
  decide

/-- Claim C5 as amended: when no nutrient of the source list matches a
category, the required fields (calories, protein, carbs, fat) default
to 0, while the optional fields (fiber, sugar, sodium) remain absent. -/
theorem c5_unmatched_defaults (ns : List Nutrient) :
    ((ns.filter fun x => decide (catOf x = some NutrCat.calories)) = [] →
      (extractNutritionalData ns).calories = 0) ∧
    ((ns.filter fun x => decide (catOf x = some NutrCat.protein)) = [] →
      (extractNutritionalData ns).protein = 0) ∧
    ((ns.filter fun x => decide (catOf x = some NutrCat.carbs)) = [] →
      (extractNutritionalData ns).carbs = 0) ∧
    ((ns.filter fun x => decide (catOf x = some NutrCat.fat)) = [] →
      (extractNutritionalData ns).fat = 0) ∧
    ((ns.filter fun x => decide (catOf x = some NutrCat.fiber)) = [] →
      (extractNutritionalData ns).fiber = none) ∧
    ((ns.filter fun x => decide (catOf x = some NutrCat.sugar)) = [] →
      (extractNutritionalData ns).sugar = none) ∧
    ((ns.filter fun x => decide (catOf x = some NutrCat.sodium)) = [] →
      (extractNutritionalData ns).sodium = none) := by
  refine ⟨fun h => ?_, fun h => ?_, fun h => ?_, fun h => ?_, fun h => ?_, fun h => ?_,
    fun h => ?_⟩ <;>
  · have hf := fieldOpt_of_no_match _ _ h
    simpa [fieldOpt, initNutritionalData] using hf

/-- Witness for C5 (amended) at the empty nutrient list. -/
theorem c5_unmatched_defaults_witness :
    (([] : List Nutrient).filter fun x => decide (catOf x = some NutrCat.calories)) = [] ∧
    (extractNutritionalData []).calories = 0 ∧
    (extractNutritionalData []).sodium = none :=
  ⟨rfl, (c5_unmatched_defaults []).1 rfl, (c5_unmatched_defaults []).2.2.2.2.2.2 rfl⟩

/-- Claim C10: category matching in nutrient extraction is an exclusive
first-match chain in the order energy, protein, carbohydrate, fat,
fiber, sugar, sodium; each nutrient updates exactly the field of its
chain category and no other, and a name containing both "protein" and
"fat" is assigned to protein only. -/
theorem c10_exclusive_chain :
    (∀ n : Nutrient, catOf n = catChainOrder.find? fun c => catMatches c n) ∧
    (∀ (d : NutritionalData) (n : Nutrient) (c : NutrCat),
        fieldOpt c (extractStep d n) =
          if catOf n = some c then some n.value else fieldOpt c d) ∧
    catOf ⟨"Protein and fat blend", 5, "G"⟩ = some NutrCat.protein := by
  refine ⟨?_, fieldOpt_extractStep, by decide⟩
  intro n
  unfold catOf catChainOrder catMatches
  split_ifs <;> simp_all [List.find?, -Bool.or_eq_true]

/-! ## Claim theorems: relevance-filter selection (C1, C6) -/

/-- Claim C1 counterexample: on the non-empty (trivially sorted)
sequence holding one annotation with empty text, the top-annotation
fallback uses its text "" as the lookup query but NOT as the display
name, which falls back to the sentinel instead — so the selection does
not take the top-scoring annotation as both query and display name. -/
theorem c1_counterexample :
    (selectNameQuery [⟨"label", "", 1⟩]).usdaQueryName = "" ∧
    (selectNameQuery [⟨"label", "", 1⟩]).name = "Unknown Food" ∧
    ("Unknown Food" : String) ≠ "" := by
  decide

/-- Claim C1 as amended: for every non-empty annotation sequence sorted
by descending score, the selection is deterministic and follows the
priority order: the first food-related non-generic annotation is both
display name and query; else the first food-related annotation is both;
else the top-scoring annotation's text is the query, and also the
display name unless that text is empty, in which case the display name
falls back to the sentinel "Unknown Food". -/
theorem c1_selection_priority (as : List Annot) (hne : as ≠ [])
    (hsorted : as.Pairwise fun a b => b.score ≤ a.score) :
    (∀ a, as.find? (fun x => isFoodRelated x.description && !isGenericCategory x.description)
        = some a → selectNameQuery as = ⟨a.description, a.description⟩) ∧
    (as.find? (fun x => isFoodRelated x.description && !isGenericCategory x.description)
        = none →
      ∀ a, as.find? (fun x => isFoodRelated x.description) = some a →
        selectNameQuery as = ⟨a.description, a.description⟩) ∧
    (as.find? (fun x => isFoodRelated x.description) = none →
      (selectNameQuery as).usdaQueryName = (as.head hne).description ∧
      (selectNameQuery as).name = orUnknown (as.head hne).description ∧
      ∀ b ∈ as, b.score ≤ (as.head hne).score) := by
  refine ⟨?_, ?_, ?_⟩
  · intro a ha
    have h2 := List.find?_some ha
    simp only [Bool.and_eq_true] at h2
    have hfood : isFoodRelated a.description = true := h2.1
    simp only [selectNameQuery, ha]
    rw [orUnknown_of_ne (isFoodRelated_ne_empty hfood)]
  · intro hs a ha
    have hfood := List.find?_some ha
    simp only [selectNameQuery, hs, ha]
    rw [orUnknown_of_ne (isFoodRelated_ne_empty hfood)]
  · intro hf
    have hs : as.find?
        (fun x => isFoodRelated x.description && !isGenericCategory x.description) = none := by
      rw [List.find?_eq_none] at hf ⊢
      intro x hx
      simp [hf x hx]
    obtain ⟨a, rest, rfl⟩ : ∃ a rest, as = a :: rest := by
      cases as with
      | nil => exact absurd rfl hne
      | cons a rest => exact ⟨a, rest, rfl⟩
    simp only [selectNameQuery, hs, hf]
    refine ⟨rfl, rfl, ?_⟩
    intro b hb
    rcases List.mem_cons.mp hb with h1 | h2
    · exact h1 ▸ le_refl _
    · exact (List.pairwise_cons.mp hsorted).1 b h2

/-- Witness for C1 (amended) at the single non-food annotation "car":
the top-annotation fallback fires. -/
theorem c1_selection_priority_witness :
    ([Annot.mk "label" "car" (97/100)] ≠ []) ∧
    (([Annot.mk "label" "car" (97/100)] : List Annot).Pairwise fun a b => b.score ≤ a.score) ∧
    (([Annot.mk "label" "car" (97/100)] : List Annot).find?
        (fun x => isFoodRelated x.description) = none) ∧
    (selectNameQuery [Annot.mk "label" "car" (97/100)]).usdaQueryName = "car" ∧
    (selectNameQuery [Annot.mk "label" "car" (97/100)]).name = orUnknown "car" := by
  refine ⟨by decide, by simp, by decide, ?_, ?_⟩
  · exact ((c1_selection_priority [Annot.mk "label" "car" (97/100)] (by decide)
      (by simp)).2.2 (by decide)).1
  · exact ((c1_selection_priority [Annot.mk "label" "car" (97/100)] (by decide)
      (by simp)).2.2 (by decide)).2.1

/-- Claim C6: on [(label,"hot dog",0.95), (label,"fast food",0.80)] the
selection yields "hot dog" as both the USDA query and the display name
(in the code this happens through the top-annotation fallback, because
"hot dog" — with a space — matches no keyword; the outcome claimed by
the spec still holds). -/
theorem c6_hot_dog_scenario :
    selectNameQuery [⟨"label", "hot dog", 95/100⟩, ⟨"label", "fast food", 80/100⟩] =
      ⟨"hot dog", "hot dog"⟩ := by
  decide

/-- Decidable equality on `Except`, for evaluating the orchestrator at
concrete inputs. -/
instance instDecEqExcept {e a : Type} [DecidableEq e] [DecidableEq a] :
    DecidableEq (Except e a) := fun x y =>
  match x, y with
  | .ok v, .ok w =>
    if h : v = w then isTrue (by rw [h]) else isFalse (fun hc => h (Except.ok.inj hc))
  | .ok _, .error _ => isFalse (fun hc => Except.noConfusion hc)
  | .error _, .ok _ => isFalse (fun hc => Except.noConfusion hc)
  | .error v, .error w =>
    if h : v = w then isTrue (by rw [h]) else isFalse (fun hc => h (Except.error.inj hc))

/-! ## Claim theorems: orchestrator (C2, C4) and save round-trip (C7) -/

/-- The orchestrator on a successful classifier call, written out. -/
theorem analyzeFoodImage_ok (payload : VisionPayload)
    (lookup : String → Except String NutritionalData) :
    analyzeFoodImage (.ok payload) lookup =
      .ok ⟨(selectNameQuery (mergeAnnots payload)).name,
        descriptionOf (mergeAnnots payload),
        (if (selectNameQuery (mergeAnnots payload)).usdaQueryName ≠ "Unknown Food" then
          match lookup (selectNameQuery (mergeAnnots payload)).usdaQueryName with
          | .ok d => some d
          | .error _ => none
        else none),
        decide ((selectNameQuery (mergeAnnots payload)).usdaQueryName ≠ "Unknown Food")⟩ :=
  rfl

/-- Claim C2: in any result returned by the orchestrator, `isFoodItem`
is true iff a nutrition lookup was attempted, i.e. iff the selected
query differs from the sentinel "Unknown Food" (whether or not the
lookup succeeded); and `nutritionalData` is present iff the lookup was
attempted and succeeded. -/
theorem c2_isFoodItem_iff (payload : VisionPayload)
    (lookup : String → Except String NutritionalData) (r : FoodAnalysisResult)
    (h : analyzeFoodImage (.ok payload) lookup = .ok r) :
    (r.isFoodItem = true ↔
      (selectNameQuery (mergeAnnots payload)).usdaQueryName ≠ "Unknown Food") ∧
    (r.nutritionalData.isSome = true ↔
      ((selectNameQuery (mergeAnnots payload)).usdaQueryName ≠ "Unknown Food" ∧
        ∃ d, lookup (selectNameQuery (mergeAnnots payload)).usdaQueryName = .ok d)) := by
  rw [analyzeFoodImage_ok] at h
  injection h with h
  subst h
  constructor
  · simp
  · split_ifs with hq
    · cases hlk : lookup (selectNameQuery (mergeAnnots payload)).usdaQueryName with
      | ok d => simp [hlk, hq]
      | error e => simp [hlk, hq]
    · simp [hq]

/-- Witness for C2: single "pizza" label with a failing lookup — the
lookup is attempted (`isFoodItem` true) but no data is present. -/
theorem c2_isFoodItem_iff_witness :
    (analyzeFoodImage (.ok ⟨[⟨"pizza", mkRat 9 10⟩], []⟩)
        (fun _ => .error "boom")
      = .ok ⟨"pizza", "pizza (90.00%) [label]", none, true⟩) ∧
    ((⟨"pizza", "pizza (90.00%) [label]", none, true⟩ : FoodAnalysisResult).isFoodItem = true ↔
      (selectNameQuery (mergeAnnots ⟨[⟨"pizza", mkRat 9 10⟩], []⟩)).usdaQueryName
        ≠ "Unknown Food") ∧
    ((⟨"pizza", "pizza (90.00%) [label]", none, true⟩ :
        FoodAnalysisResult).nutritionalData.isSome = true ↔
      ((selectNameQuery (mergeAnnots ⟨[⟨"pizza", mkRat 9 10⟩], []⟩)).usdaQueryName
          ≠ "Unknown Food" ∧
        ∃ d, (fun _ : String => (.error "boom" : Except String NutritionalData))
          (selectNameQuery (mergeAnnots ⟨[⟨"pizza", mkRat 9 10⟩], []⟩)).usdaQueryName
            = .ok d)) := by
  have hmerge : mergeAnnots ⟨[⟨"pizza", mkRat 9 10⟩], []⟩
      = [⟨"label", "pizza", mkRat 9 10⟩] := by
    simp [mergeAnnots]
  have hok : analyzeFoodImage (.ok ⟨[⟨"pizza", mkRat 9 10⟩], []⟩)
      (fun _ => .error "boom")
      = .ok ⟨"pizza", "pizza (90.00%) [label]", none, true⟩ := by
    rw [analyzeFoodImage_ok, hmerge]
    decide
  have hmain := c2_isFoodItem_iff ⟨[⟨"pizza", mkRat 9 10⟩], []⟩ (fun _ => .error "boom")
    ⟨"pizza", "pizza (90.00%) [label]", none, true⟩ hok
  exact ⟨hok, hmain.1, hmain.2⟩

/-- Claim C4: a classifier failure is rethrown as a terminal error with
no partial result, while a nutrition-lookup failure after a successful
classifier call is absorbed: the orchestrator still returns an
assembled result whose `nutritionalData` is absent. -/
theorem c4_error_propagation :
    (∀ (e : VisionErr) (lookup : String → Except String NutritionalData),
        analyzeFoodImage (.error e) lookup = .error (translateVisionError e)) ∧
    (∀ (payload : VisionPayload) (msg : String),
        ∃ r, analyzeFoodImage (.ok payload) (fun _ => .error msg) = .ok r ∧
          r.nutritionalData = none) := by
  constructor
  · intro e lookup
    rfl
  · intro payload msg
    rw [analyzeFoodImage_ok]
    refine ⟨_, rfl, ?_⟩
    split <;> rfl

/-- JS `x || 0` on a number is the identity. -/
theorem jsOr0_eq (x : ℚ) : jsOr0 x = x := by
  unfold jsOr0
  split_ifs with h
  · exact h.symm
  · rfl

/-- Claim C7: saving a food result with present nutritional data yields
a meal record whose aggregate total matches the input nutritional data
exactly on each required field (calories, protein, carbs, fat). -/
theorem c7_save_roundtrip (userId imageUri : String) (fd : FoodAnalysisResult)
    (nd : NutritionalData) (hfood : fd.isFoodItem = true)
    (hnd : fd.nutritionalData = some nd) :
    ∃ mr, handleSaveToHistory userId imageUri fd = some mr ∧
      mr.analysisData.total.calories = nd.calories ∧
      mr.analysisData.total.protein = nd.protein ∧
      mr.analysisData.total.carbs = nd.carbs ∧
      mr.analysisData.total.fats = nd.fat := by
  simp only [handleSaveToHistory, hnd, hfood]
  rw [if_neg (by simp)]
  exact ⟨_, rfl, jsOr0_eq _, jsOr0_eq _, jsOr0_eq _, jsOr0_eq _⟩

/-- Witness for C7 at a concrete saved result. -/
theorem c7_save_roundtrip_witness :
    (⟨"pizza", "d", some ⟨250, 10, 30, 8, none, some 5, some 500⟩, true⟩ :
        FoodAnalysisResult).isFoodItem = true ∧
    (⟨"pizza", "d", some ⟨250, 10, 30, 8, none, some 5, some 500⟩, true⟩ :
        FoodAnalysisResult).nutritionalData
      = some ⟨250, 10, 30, 8, none, some 5, some 500⟩ ∧
    ∃ mr, handleSaveToHistory "u1" "img1"
          ⟨"pizza", "d", some ⟨250, 10, 30, 8, none, some 5, some 500⟩, true⟩ = some mr ∧
        mr.analysisData.total.calories = (250 : ℚ) ∧
        mr.analysisData.total.protein = (10 : ℚ) ∧
        mr.analysisData.total.carbs = (30 : ℚ) ∧
        mr.analysisData.total.fats = (8 : ℚ) :=
  ⟨rfl, rfl, c7_save_roundtrip "u1" "img1"
    ⟨"pizza", "d", some ⟨250, 10, 30, 8, none, some 5, some 500⟩, true⟩
    ⟨250, 10, 30, 8, none, some 5, some 500⟩ rfl rfl⟩

/-! ## Claim theorems: merged annotation order and description (C8),
nutrition lookup contract (C9) -/

/-- Claim C8: the merged label+object annotation sequence is explicitly
sorted by descending score, and whenever at least one annotation exists
the description renders ALL annotations, comma-joined in that same
descending-score order, each as `<text> (<score*100 to 2 decimals>%)
[<kind>]` (the rendering is `renderAnnot`). -/
theorem c8_sorted_description (payload : VisionPayload) :
    (mergeAnnots payload).Pairwise (fun a b => b.score ≤ a.score) ∧
    (mergeAnnots payload ≠ [] →
      descriptionOf (mergeAnnots payload) =
        String.intercalate ", " ((mergeAnnots payload).map renderAnnot)) := by
  constructor
  · have htrans : ∀ (a b c : Annot), scoreDesc a b → scoreDesc b c → scoreDesc a c := by
      intro a b c hab hbc
      simp only [scoreDesc, decide_eq_true_eq] at hab hbc ⊢
      exact le_trans hbc hab
    have htot : ∀ (a b : Annot), scoreDesc a b || scoreDesc b a := by
      intro a b
      simp only [scoreDesc]
      rcases le_total b.score a.score with hle | hle <;> simp [hle]
    have h := List.sorted_mergeSort htrans htot
      ((payload.labelAnnotations.map fun a => Annot.mk "label" a.description a.score) ++
       (payload.localizedObjectAnnotations.map fun a => Annot.mk "object" a.name a.score))
    exact h.imp (fun hab => of_decide_eq_true hab)
  · intro hne
    have hlen : decide (0 < (mergeAnnots payload).length) = true :=
      decide_eq_true (List.length_pos.mpr hne)
    unfold descriptionOf
    simp [hlen]

/-- Witness for C8 at a one-label payload. -/
theorem c8_sorted_description_witness :
    (mergeAnnots ⟨[⟨"car", mkRat 1 2⟩], []⟩ ≠ []) ∧
    descriptionOf (mergeAnnots ⟨[⟨"car", mkRat 1 2⟩], []⟩) =
      String.intercalate ", " ((mergeAnnots ⟨[⟨"car", mkRat 1 2⟩], []⟩).map renderAnnot) := by
  have hmerge : mergeAnnots ⟨[⟨"car", mkRat 1 2⟩], []⟩ = [⟨"label", "car", mkRat 1 2⟩] := by
    simp [mergeAnnots]
  refine ⟨by rw [hmerge]; decide, ?_⟩
  exact (c8_sorted_description ⟨[⟨"car", mkRat 1 2⟩], []⟩).2 (by rw [hmerge]; decide)

/-- Claim C9: the USDA search request caps candidates at page size 5
(the built URL carries the parameter `&pageSize=5&` between the fixed
data-type filter and the API key); the lookup always extracts the FIRST
food record of the response with no re-ranking; and a response with
zero matches fails with a not-found error and produces no data. -/
theorem c9_lookup_contract :
    (∀ q k : String, usdaSearchUrl q k =
        ("https://api.nal.usda.gov/fdc/v1/foods/search?query=" ++ q ++
          "&dataType=Survey%20(FNDDS)") ++ "&pageSize=5&" ++ ("api_key=" ++ k)) ∧
    (∀ (foodName : String) (f : FoodData) (rest : List FoodData),
        fetchNutritionalData foodName (f :: rest)
          = .ok (extractNutritionalData f.foodNutrients)) ∧
    (∀ foodName : String,
        fetchNutritionalData foodName []
          = .error ("Failed to fetch nutritional data for " ++ foodName)) := by
  refine ⟨?_, fun _ _ _ => rfl, fun _ => rfl⟩
  intro q k
  unfold usdaSearchUrl
  have h1 : ("https://api.nal.usda.gov/fdc/v1" : String) ++ "/foods/search?query=" =
      "https://api.nal.usda.gov/fdc/v1/foods/search?query=" := by decide
  have h2 : ("&dataType=Survey%20(FNDDS)&pageSize=5&api_key=" : String) =
      "&dataType=Survey%20(FNDDS)" ++ "&pageSize=5&" ++ "api_key=" := by decide
  rw [h1, h2]
  simp only [String.append_assoc]

end FoodApp
